import Mathlib

/-!
Shallow embedding of `src/client/src/www/app/outline_server_repository/server.ts`:
the `OutlineServer` session class (constructor, `connect`, `disconnect`, the
`address` getter) and the module-level helper `fetchTunnelConfig`.

External collaborators (`parseAccessKey`, `parseTunnelConfig`, the `VpnApi`
engine, the `ResourceFetcher`, the `Localizer`) are parameters of the
embedded operations; an awaited call that can throw is modelled as an
`Except JSError _` value.  An `Except Err Unit` result models the normal
return / thrown outcome of `connect` and `disconnect`.
-/

namespace OutlineSpec

/-- A value thrown by native/collaborator code, with exactly the attributes the
source inspects: `instanceof PlatformError`, `instanceof
errors.SessionProviderError`, a possibly-falsy `errorCode` property (`none` =
absent, `some 0` = present but falsy as in JS), and an otherwise opaque
payload. -/
structure JSError where
  isPlatformError : Bool
  isSessionProviderError : Bool
  errorCode : Option Nat
  payload : String
  deriving DecidableEq, Repr

/-- JS truthiness of the `errorCode` property read in `connect`'s catch block:
present and nonzero. -/
def errorCodeTruthy : Option Nat → Bool
  | none => false
  | some n => n != 0

/-- The errors the embedded code itself throws, next to rethrown raw values:
`errors.ServerAccessKeyInvalid` (message, optional cause),
`errors.ProxyConnectionFailure` (message, cause), the result of
`errors.fromErrorCode`, and `errors.RegularNativeError`. -/
inductive Err where
  | js (e : JSError)
  | serverAccessKeyInvalid (message : String) (cause : Option JSError)
  | proxyConnectionFailure (message : String) (cause : JSError)
  | fromErrorCode (code : Nat)
  | regularNativeError
  deriving DecidableEq, Repr

/-- One hop of the tunnel: the `firstHop = {host, port}` record. -/
structure Hop where
  host : String
  port : Nat
  deriving DecidableEq, Repr

/-- The parsed tunnel configuration (`TunnelConfigJson`): its first hop plus an
opaque remainder of the transport parameters. -/
structure TunnelConfigJson where
  firstHop : Hop
  transport : String
  deriving DecidableEq, Repr

/-- The fields of a parsed `URL` object that the constructor reads. -/
structure URLRecord where
  hostname : String
  port : String
  deriving DecidableEq, Repr

/-- `ServerType` from `model/server`. -/
inductive ServerType where
  | DYNAMIC_CONNECTION
  | STATIC_CONNECTION
  deriving DecidableEq, Repr

/-- Modelled from the spec: the implicit default proxy port that display
addresses elide ('443', the port the constructor also special-cases for the
config-location URL). -/
def defaultProxyPort : String := "443"

/-- Modelled from the spec: `net.joinHostPort` of `@outline/infrastructure/net`
is not under src; per the spec the derived display address is "host:port; if
port is the default proxy port, display host only". -/
def net.joinHostPort (host port : String) : String :=
  if port = defaultProxyPort then host else host ++ ":" ++ port

/-- Helper for `strIncludes`: does `pat` occur at the head of `s`? -/
def charListHasPrefix : List Char → List Char → Bool
  | [], _ => true
  | _ :: _, [] => false
  | p :: ps, c :: cs => (p = c) && charListHasPrefix ps cs

/-- Helper for `strIncludes`: does `pat` occur anywhere in `s`? -/
def charListContains (s pat : List Char) : Bool :=
  match s with
  | [] => pat.isEmpty
  | c :: cs => charListHasPrefix pat (c :: cs) || charListContains cs pat

/-- Model of the JS builtin `String.prototype.includes`: substring
containment. -/
def strIncludes (s pat : String) : Bool := charListContains s.data pat.data

/-- Model of the JS builtin `String.prototype.trim`: drop whitespace from both
ends. -/
def jsTrim (s : String) : String :=
  ⟨((s.data.dropWhile Char.isWhitespace).reverse.dropWhile
      Char.isWhitespace).reverse⟩

/-- JS falsiness of a string (`!responseBody`): true exactly on the empty
string. -/
def strFalsy (s : String) : Bool := s.data.isEmpty

/-- Result of the external `parseAccessKey`: a `DynamicServiceConfig` or a
`StaticServiceConfig`, each carrying an optional embedded `name`. -/
inductive ServiceConfig where
  | dynamic (name : Option String) (transportConfigLocation : URLRecord)
  | static (name : Option String) (tunnelConfig : TunnelConfigJson)
  deriving DecidableEq, Repr

/-- The optional embedded display name of a parsed service config. -/
def ServiceConfig.name : ServiceConfig → Option String
  | .dynamic n _ => n
  | .static n _ => n

/-- The fields of an `OutlineServer` instance.  `tunnelConfigLocation` and
`staticTunnelConfig` are `none` when the corresponding constructor branch
leaves them undefined; `errorMessageId` is never set by the constructor. -/
structure OutlineServer where
  id : String
  name : String
  accessKey : String
  type : ServerType
  tunnelConfigLocation : Option URLRecord
  displayAddress : String
  staticTunnelConfig : Option TunnelConfigJson
  errorMessageId : Option String
  deriving DecidableEq, Repr

/-- `name ?? serviceConfig.name` (JS nullish coalescing; `none` = null). -/
def nullishName (nameArg cfgName : Option String) : Option String :=
  match nameArg with
  | some n => some n
  | none => cfgName

/-- JS falsiness of `this.name` right after `this.name = name ??
serviceConfig.name`: null/undefined or the empty string. -/
def nameFalsy : Option String → Bool
  | none => true
  | some s => strFalsy s

/-- The `OutlineServer` constructor.  `nameArg` is the `name` parameter
(`none` = null/undefined), `serviceConfig` the result of the external
`parseAccessKey accessKey`, `localize` the injected `Localizer`. -/
def OutlineServer.construct (id : String) (nameArg : Option String)
    (accessKey : String) (localize : String → String)
    (serviceConfig : ServiceConfig) : OutlineServer :=
  let name0 : Option String := nullishName nameArg serviceConfig.name
  match serviceConfig with
  | .dynamic _ loc =>
    { id := id
      accessKey := accessKey
      type := ServerType.DYNAMIC_CONNECTION
      tunnelConfigLocation := some loc
      displayAddress := ""
      staticTunnelConfig := none
      errorMessageId := none
      name :=
        if nameFalsy name0 then
          if loc.port = "443" then loc.hostname
          else net.joinHostPort loc.hostname loc.port
        else name0.getD "" }
  | .static _ cfg =>
    { id := id
      accessKey := accessKey
      type := ServerType.STATIC_CONNECTION
      tunnelConfigLocation := none
      displayAddress := net.joinHostPort cfg.firstHop.host (toString cfg.firstHop.port)
      staticTunnelConfig := some cfg
      errorMessageId := none
      name :=
        if nameFalsy name0 then
          localize (if strIncludes accessKey "outline=1" then
              "server-default-name-outline"
            else "server-default-name")
        else name0.getD "" }

/-- The `address` getter. -/
def OutlineServer.address (s : OutlineServer) : String := s.displayAddress

/-- The request submitted to `vpnApi.start`; `config` is `none` when the
session holds no tunnel config (JS `undefined`). -/
structure StartRequestJson where
  id : String
  name : String
  config : Option TunnelConfigJson
  deriving DecidableEq, Repr

/-- The request literal `{id: this.id, name: this.name, config: tunnelConfig}`
built inside `connect`. -/
def OutlineServer.startRequest (s : OutlineServer)
    (config : Option TunnelConfigJson) : StartRequestJson :=
  { id := s.id, name := s.name, config := config }

/-- The catch block of `connect`: classify a value thrown by `vpnApi.start`.
A `PlatformError` is rethrown unchanged; else a truthy `errorCode` is mapped
through `errors.fromErrorCode`; else a `ProxyConnectionFailure` wraps the
cause with the server name in the message. -/
def classifyStartFailure (name : String) (cause : JSError) : Err :=
  if cause.isPlatformError then Err.js cause
  else if errorCodeTruthy cause.errorCode then
    Err.fromErrorCode (cause.errorCode.getD 0)
  else
    Err.proxyConnectionFailure
      ("Failed to connect to server " ++ name ++ ".") cause

/-- `fetchTunnelConfig`.  `fetchResult` is the outcome of the awaited
`urlFetcher.fetch(configLocation.toString())` — which the source performs
outside the try block — and `parse` is the external `parseTunnelConfig`. -/
def fetchTunnelConfig (fetchResult : Except JSError String)
    (parse : String → Except JSError TunnelConfigJson) :
    Except Err TunnelConfigJson :=
  match fetchResult with
  | .error e => .error (Err.js e)
  | .ok body =>
    let responseBody := jsTrim body
    if strFalsy responseBody then
      .error (Err.serverAccessKeyInvalid "Got empty config from dynamic key." none)
    else
      match parse responseBody with
      | .ok cfg => .ok cfg
      | .error cause =>
        if cause.isSessionProviderError then .error (Err.js cause)
        else
          .error (Err.serverAccessKeyInvalid
            "Failed to parse VPN information fetched from dynamic access key."
            (some cause))

/-- The try block of `connect`: build the start request, call the engine's
`start`, and classify a thrown failure. -/
def OutlineServer.submitStart (s : OutlineServer)
    (config : Option TunnelConfigJson)
    (start : StartRequestJson → Except JSError Unit) : Except Err Unit :=
  match start (s.startRequest config) with
  | .ok _ => .ok ()
  | .error cause => .error (classifyStartFailure s.name cause)

/-- `connect()`: returns the updated session state together with the normal
return / thrown outcome.  For a dynamic server the config is fetched and
`displayAddress` recomputed before the engine is started; for a static server
the stored config is used directly. -/
def OutlineServer.connect (s : OutlineServer)
    (fetchResult : Except JSError String)
    (parse : String → Except JSError TunnelConfigJson)
    (start : StartRequestJson → Except JSError Unit) :
    OutlineServer × Except Err Unit :=
  if s.type = ServerType.DYNAMIC_CONNECTION then
    match fetchTunnelConfig fetchResult parse with
    | .error e => (s, .error e)
    | .ok tunnelConfig =>
      let addr := net.joinHostPort tunnelConfig.firstHop.host
        (toString tunnelConfig.firstHop.port)
      let s' := { s with displayAddress := addr }
      (s', s'.submitStart (some tunnelConfig) start)
  else
    (s, s.submitStart s.staticTunnelConfig start)

/-- `disconnect()`: stop the engine; on success reset `displayAddress` for
dynamic servers; on failure throw `errors.RegularNativeError`. -/
def OutlineServer.disconnect (s : OutlineServer)
    (stop : String → Except JSError Unit) :
    OutlineServer × Except Err Unit :=
  match stop s.id with
  | .ok _ =>
    if s.type = ServerType.DYNAMIC_CONNECTION then
      ({ s with displayAddress := "" }, .ok ())
    else (s, .ok ())
  | .error _ => (s, .error Err.regularNativeError)

/-! Concrete sample values used by witnesses and counterexamples. -/

/-- Sample first hop used by the concrete witnesses. -/
def sampleHop : Hop := { host := "proxy.example.org", port := 9999 }

/-- Sample tunnel configuration used by the concrete witnesses. -/
def sampleCfg : TunnelConfigJson :=
  { firstHop := sampleHop, transport := "ss-transport" }

/-- Sample dynamic-config location used by the concrete witnesses. -/
def sampleURL : URLRecord := { hostname := "example.com", port := "8443" }

/-- Identity localizer used by the concrete witnesses. -/
def sampleLocalize : String → String := fun key => key

/-- A concretely constructed dynamic server. -/
def sampleDynServer : OutlineServer :=
  OutlineServer.construct "id-dyn" none "ssconf-dyn-key" sampleLocalize
    (ServiceConfig.dynamic none sampleURL)

/-- A concretely constructed static server. -/
def sampleStaticServer : OutlineServer :=
  OutlineServer.construct "id-static" (some "My Server") "ss-static-key"
    sampleLocalize (ServiceConfig.static none sampleCfg)

/-- A parser that always succeeds with `sampleCfg`. -/
def sampleParseOk : String → Except JSError TunnelConfigJson :=
  fun _ => Except.ok sampleCfg

/-- A plain (untyped, code-less) engine failure value. -/
def plainEngineError : JSError :=
  { isPlatformError := false, isSessionProviderError := false,
    errorCode := none, payload := "engine failure" }

/-- A `PlatformError`-typed engine failure value. -/
def platformEngineError : JSError :=
  { isPlatformError := true, isSessionProviderError := false,
    errorCode := none, payload := "platform failure" }

/-- A plain network failure value thrown by the fetcher. -/
def plainFetchError : JSError :=
  { isPlatformError := false, isSessionProviderError := false,
    errorCode := none, payload := "network unreachable" }

/-- An engine `start` that always throws `plainEngineError`. -/
def startFailPlain : StartRequestJson → Except JSError Unit :=
  fun _ => Except.error plainEngineError

/-- An engine `start` that always throws `platformEngineError`. -/
def startFailPlatform : StartRequestJson → Except JSError Unit :=
  fun _ => Except.error platformEngineError

/-- An engine `stop` that always succeeds. -/
def stopOk : String → Except JSError Unit := fun _ => Except.ok ()

/-- An engine `stop` that always throws `plainEngineError`. -/
def stopFail : String → Except JSError Unit :=
  fun _ => Except.error plainEngineError

/-! Helper lemmas shared by several claims. -/

/-- A nonempty string is not JS-falsy. -/
theorem strFalsy_eq_false (s : String) (hs : s ≠ "") : strFalsy s = false := by
  cases s with
  | mk data =>
    cases data with
    | nil => exact absurd rfl hs
    | cons c cs => rfl

/-- A joined display address is nonempty whenever the host is nonempty. -/
theorem joinHostPort_ne_empty (h p : String) (hh : h ≠ "") :
    net.joinHostPort h p ≠ "" := by
  unfold net.joinHostPort
  split
  · exact hh
  · intro hc
    have hdata := congrArg String.data hc
    simp at hdata

/-- C1: when the engine's `start` call fails during `connect()`, the thrown
error is classified in exactly this order: a `PlatformError` is rethrown
unchanged; otherwise a carried (truthy) `errorCode` is mapped through
`errors.fromErrorCode` (so code 7 yields the mapped error, not
`ProxyConnectionFailure`); otherwise a `ProxyConnectionFailure` wrapping the
cause, whose message contains the server's name. -/
theorem connect_start_failure_classification (s : OutlineServer)
    (f : Except JSError String) (p : String → Except JSError TunnelConfigJson)
    (start : StartRequestJson → Except JSError Unit) (e : JSError)
    (hres : s.type = ServerType.STATIC_CONNECTION ∨
      ∃ cfg, fetchTunnelConfig f p = Except.ok cfg)
    (hfail : ∀ req, start req = Except.error e) :
    (e.isPlatformError = true →
      (s.connect f p start).2 = Except.error (Err.js e)) ∧
    (e.isPlatformError = false → ∀ c : Nat, e.errorCode = some c → c ≠ 0 →
      (s.connect f p start).2 = Except.error (Err.fromErrorCode c)) ∧
    (e.isPlatformError = false → errorCodeTruthy e.errorCode = false →
      ∃ pre post, (s.connect f p start).2 =
        Except.error (Err.proxyConnectionFailure (pre ++ s.name ++ post) e)) := by
  have main : (s.connect f p start).2 =
      Except.error (classifyStartFailure s.name e) := by
    by_cases hty : s.type = ServerType.DYNAMIC_CONNECTION
    · rcases hres with hstatic | ⟨cfg, hcfg⟩
      · simp [hstatic] at hty
      · simp [OutlineServer.connect, hty, hcfg, OutlineServer.submitStart, hfail]
    · simp [OutlineServer.connect, hty, OutlineServer.submitStart, hfail]
  refine ⟨?_, ?_, ?_⟩
  · intro hpe
    rw [main]
    simp [classifyStartFailure, hpe]
  · intro hpe c hc hcne
    rw [main]
    simp [classifyStartFailure, hpe, errorCodeTruthy, hc, hcne]
  · intro hpe hcode
    refine ⟨"Failed to connect to server ", ".", ?_⟩
    rw [main]
    simp [classifyStartFailure, hpe, hcode]

/-- Witness for C1: a static server whose engine start throws a
`PlatformError`. -/
theorem connect_start_failure_classification_witness :
    (platformEngineError.isPlatformError = true →
      (sampleStaticServer.connect (Except.ok "ignored") sampleParseOk
          startFailPlatform).2 = Except.error (Err.js platformEngineError)) ∧
    (platformEngineError.isPlatformError = false → ∀ c : Nat,
      platformEngineError.errorCode = some c → c ≠ 0 →
      (sampleStaticServer.connect (Except.ok "ignored") sampleParseOk
          startFailPlatform).2 = Except.error (Err.fromErrorCode c)) ∧
    (platformEngineError.isPlatformError = false →
      errorCodeTruthy platformEngineError.errorCode = false →
      ∃ pre post, (sampleStaticServer.connect (Except.ok "ignored") sampleParseOk
          startFailPlatform).2 =
        Except.error (Err.proxyConnectionFailure
          (pre ++ sampleStaticServer.name ++ post) platformEngineError)) :=
  connect_start_failure_classification sampleStaticServer (Except.ok "ignored")
    sampleParseOk startFailPlatform platformEngineError (Or.inl rfl)
    (fun _ => rfl)

/-- C2: `fetchTunnelConfig` trims the fetched response body; an empty result
fails with `ServerAccessKeyInvalid` whose message mentions the empty config; a
parse failure that is a recognized `SessionProviderError` is propagated
unchanged (never re-wrapped); any other parse failure is thrown as
`ServerAccessKeyInvalid` wrapping the original cause. -/
theorem fetchTunnelConfig_error_classification (body : String)
    (p : String → Except JSError TunnelConfigJson)
    (f : Except JSError String) (hf : f = Except.ok body) :
    (strFalsy (jsTrim body) = true →
      ∃ pre post,
        fetchTunnelConfig f p =
          Except.error
            (Err.serverAccessKeyInvalid (pre ++ "empty config" ++ post) none) ∧
        pre ++ "empty config" ++ post = "Got empty config from dynamic key.") ∧
    (strFalsy (jsTrim body) = false →
      ∀ e : JSError, p (jsTrim body) = Except.error e →
      (e.isSessionProviderError = true →
        fetchTunnelConfig f p = Except.error (Err.js e)) ∧
      (e.isSessionProviderError = false →
        ∃ msg, fetchTunnelConfig f p =
          Except.error (Err.serverAccessKeyInvalid msg (some e)))) := by
  subst hf
  constructor
  · intro hempty
    have hmsg : "Got " ++ "empty config" ++ " from dynamic key." =
        "Got empty config from dynamic key." := rfl
    refine ⟨"Got ", " from dynamic key.", ?_, hmsg⟩
    rw [hmsg]
    simp [fetchTunnelConfig, hempty]
  · intro hnonempty e hpe
    constructor
    · intro hspe
      simp [fetchTunnelConfig, hnonempty, hpe, hspe]
    · intro hspe
      refine ⟨"Failed to parse VPN information fetched from dynamic access key.",
        ?_⟩
      simp [fetchTunnelConfig, hnonempty, hpe, hspe]

/-- Witness for C2: a whitespace-only body trims to the empty string. -/
theorem fetchTunnelConfig_error_classification_witness :
    (strFalsy (jsTrim "   ") = true →
      ∃ pre post,
        fetchTunnelConfig (Except.ok "   ") sampleParseOk =
          Except.error
            (Err.serverAccessKeyInvalid (pre ++ "empty config" ++ post) none) ∧
        pre ++ "empty config" ++ post = "Got empty config from dynamic key.") ∧
    (strFalsy (jsTrim "   ") = false →
      ∀ e : JSError, sampleParseOk (jsTrim "   ") = Except.error e →
      (e.isSessionProviderError = true →
        fetchTunnelConfig (Except.ok "   ") sampleParseOk =
          Except.error (Err.js e)) ∧
      (e.isSessionProviderError = false →
        ∃ msg, fetchTunnelConfig (Except.ok "   ") sampleParseOk =
          Except.error (Err.serverAccessKeyInvalid msg (some e)))) :=
  fetchTunnelConfig_error_classification "   " sampleParseOk
    (Except.ok "   ") rfl

/-- C3 counterexample: for a dynamic server, a `connect()` that fails at the
engine's `start` — after a successful config fetch — leaves `displayAddress`
non-empty, refuting "no failing connect() can leave displayAddress
non-empty". -/
theorem dynamic_failed_connect_leaves_address_nonempty :
    sampleDynServer.address = "" ∧
    (sampleDynServer.connect (Except.ok "remote-config") sampleParseOk
        startFailPlain).1.address = "proxy.example.org:9999" ∧
    ∃ err, (sampleDynServer.connect (Except.ok "remote-config") sampleParseOk
        startFailPlain).2 = Except.error err := by
  refine ⟨rfl, by decide, ⟨Err.proxyConnectionFailure
    ("Failed to connect to server " ++ sampleDynServer.name ++ ".")
    plainEngineError, ?_⟩⟩
  rfl

/-- C3 (amended): for every dynamic server, `displayAddress` is empty right
after construction; a `connect()` whose dynamic-config resolution fails leaves
the state (so also the empty address) unchanged; and a `connect()` whose
resolution succeeds — even one whose engine start then fails — sets
`displayAddress` to the first hop's display address, non-empty whenever the
hop's host is non-empty. -/
theorem dynamic_address_lifecycle
    (id : String) (nameArg : Option String) (accessKey : String)
    (localize : String → String) (n : Option String) (loc : URLRecord)
    (s : OutlineServer) (hty : s.type = ServerType.DYNAMIC_CONNECTION)
    (f : Except JSError String) (p : String → Except JSError TunnelConfigJson)
    (start : StartRequestJson → Except JSError Unit) :
    (OutlineServer.construct id nameArg accessKey localize
        (ServiceConfig.dynamic n loc)).address = "" ∧
    (∀ err, fetchTunnelConfig f p = Except.error err →
      (s.connect f p start).1 = s) ∧
    (∀ cfg, fetchTunnelConfig f p = Except.ok cfg →
      (s.connect f p start).1.address =
        net.joinHostPort cfg.firstHop.host (toString cfg.firstHop.port) ∧
      (cfg.firstHop.host ≠ "" → (s.connect f p start).1.address ≠ "")) := by
  refine ⟨rfl, ?_, ?_⟩
  · intro err herr
    simp [OutlineServer.connect, hty, herr]
  · intro cfg hcfg
    have haddr : (s.connect f p start).1.address =
        net.joinHostPort cfg.firstHop.host (toString cfg.firstHop.port) := by
      simp [OutlineServer.connect, hty, hcfg, OutlineServer.address]
    refine ⟨haddr, ?_⟩
    intro hh
    rw [haddr]
    exact joinHostPort_ne_empty _ _ hh

/-- Witness for C3 (amended): the concrete dynamic server, a failing fetch and
a successful resolution. -/
theorem dynamic_address_lifecycle_witness :
    sampleDynServer.address = "" ∧
    (sampleDynServer.connect (Except.error plainFetchError) sampleParseOk
        startFailPlain).1 = sampleDynServer ∧
    (sampleDynServer.connect (Except.ok "remote-config") sampleParseOk
        startFailPlain).1.address =
      net.joinHostPort sampleCfg.firstHop.host
        (toString sampleCfg.firstHop.port) ∧
    (sampleDynServer.connect (Except.ok "remote-config") sampleParseOk
        startFailPlain).1.address ≠ "" :=
  ⟨(dynamic_address_lifecycle "id-dyn" none "ssconf-dyn-key" sampleLocalize
      none sampleURL sampleDynServer rfl (Except.error plainFetchError)
      sampleParseOk startFailPlain).1,
   (dynamic_address_lifecycle "id-dyn" none "ssconf-dyn-key" sampleLocalize
      none sampleURL sampleDynServer rfl (Except.error plainFetchError)
      sampleParseOk startFailPlain).2.1 (Err.js plainFetchError) rfl,
   ((dynamic_address_lifecycle "id-dyn" none "ssconf-dyn-key" sampleLocalize
      none sampleURL sampleDynServer rfl (Except.ok "remote-config")
      sampleParseOk startFailPlain).2.2 sampleCfg rfl).1,
   ((dynamic_address_lifecycle "id-dyn" none "ssconf-dyn-key" sampleLocalize
      none sampleURL sampleDynServer rfl (Except.ok "remote-config")
      sampleParseOk startFailPlain).2.2 sampleCfg rfl).2 (by decide)⟩

/-- C4: a display address derived from a first hop — at construction for a
static server, at connect-time for a dynamic server — equals `host:port` of
that hop, except that the port is elided when it is the implicit default proxy
port. -/
theorem displayAddress_from_first_hop
    (id : String) (nameArg : Option String) (accessKey : String)
    (localize : String → String) (n : Option String) (cfg : TunnelConfigJson)
    (s : OutlineServer) (f : Except JSError String)
    (p : String → Except JSError TunnelConfigJson)
    (start : StartRequestJson → Except JSError Unit) :
    ((toString cfg.firstHop.port ≠ defaultProxyPort →
        (OutlineServer.construct id nameArg accessKey localize
            (ServiceConfig.static n cfg)).address =
          cfg.firstHop.host ++ ":" ++ toString cfg.firstHop.port) ∧
     (toString cfg.firstHop.port = defaultProxyPort →
        (OutlineServer.construct id nameArg accessKey localize
            (ServiceConfig.static n cfg)).address = cfg.firstHop.host)) ∧
    (s.type = ServerType.DYNAMIC_CONNECTION →
      ∀ rcfg, fetchTunnelConfig f p = Except.ok rcfg →
        ((toString rcfg.firstHop.port ≠ defaultProxyPort →
            (s.connect f p start).1.address =
              rcfg.firstHop.host ++ ":" ++ toString rcfg.firstHop.port) ∧
         (toString rcfg.firstHop.port = defaultProxyPort →
            (s.connect f p start).1.address = rcfg.firstHop.host))) := by
  refine ⟨⟨?_, ?_⟩, ?_⟩
  · intro hne
    simp [OutlineServer.construct, OutlineServer.address, net.joinHostPort, hne]
  · intro heq
    simp [OutlineServer.construct, OutlineServer.address, net.joinHostPort, heq]
  · intro hty rcfg hrcfg
    constructor
    · intro hne
      simp [OutlineServer.connect, hty, hrcfg, OutlineServer.address,
        net.joinHostPort, hne]
    · intro heq
      simp [OutlineServer.connect, hty, hrcfg, OutlineServer.address,
        net.joinHostPort, heq]

/-- Witness for C4: the sample static server (hop port 9999) and the sample
dynamic server connected against `sampleCfg`. -/
theorem displayAddress_from_first_hop_witness :
    sampleStaticServer.address =
      sampleCfg.firstHop.host ++ ":" ++ toString sampleCfg.firstHop.port ∧
    (sampleDynServer.connect (Except.ok "remote-config") sampleParseOk
        startFailPlain).1.address =
      sampleCfg.firstHop.host ++ ":" ++ toString sampleCfg.firstHop.port :=
  ⟨(displayAddress_from_first_hop "id-static" (some "My Server")
      "ss-static-key" sampleLocalize none sampleCfg sampleDynServer
      (Except.ok "remote-config") sampleParseOk startFailPlain).1.1
      (by decide),
   ((displayAddress_from_first_hop "id-static" (some "My Server")
      "ss-static-key" sampleLocalize none sampleCfg sampleDynServer
      (Except.ok "remote-config") sampleParseOk startFailPlain).2 rfl
      sampleCfg rfl).1 (by decide)⟩

/-- C5 counterexample: a network-fetch failure that is not a recognized
session-provider error still reaches `connect()`'s caller as-is — it is not
wrapped, refuting "otherwise it is wrapped". -/
theorem fetch_failure_reaches_caller_unwrapped :
    plainFetchError.isSessionProviderError = false ∧
    (sampleDynServer.connect (Except.error plainFetchError) sampleParseOk
        startFailPlain).2 = Except.error (Err.js plainFetchError) :=
  ⟨rfl, rfl⟩

/-- C5 (amended): when the network fetch of the dynamic config location fails,
the failure is always surfaced to `connect()`'s caller as-is — whether or not
it is a recognized session-provider error kind — and the session state is
unchanged; it is never wrapped. -/
theorem fetch_failure_surfaced_as_is (s : OutlineServer)
    (hty : s.type = ServerType.DYNAMIC_CONNECTION) (e : JSError)
    (p : String → Except JSError TunnelConfigJson)
    (start : StartRequestJson → Except JSError Unit) :
    s.connect (Except.error e) p start = (s, Except.error (Err.js e)) := by
  simp [OutlineServer.connect, hty, fetchTunnelConfig]

/-- Witness for C5 (amended): the sample dynamic server with a plain network
failure. -/
theorem fetch_failure_surfaced_as_is_witness :
    sampleDynServer.connect (Except.error plainFetchError) sampleParseOk
      startFailPlain = (sampleDynServer, Except.error (Err.js plainFetchError)) :=
  fetch_failure_surfaced_as_is sampleDynServer rfl plainFetchError
    sampleParseOk startFailPlain

/-- C6: when the engine's `stop` throws, `disconnect()` rethrows
`errors.RegularNativeError` regardless of the thrown value's shape, and the
session state — `displayAddress` included — is left unchanged. -/
theorem disconnect_stop_failure (s : OutlineServer)
    (stop : String → Except JSError Unit) (e : JSError)
    (hstop : stop s.id = Except.error e) :
    s.disconnect stop = (s, Except.error Err.regularNativeError) := by
  simp [OutlineServer.disconnect, hstop]

/-- Witness for C6: the sample dynamic server with an always-failing stop. -/
theorem disconnect_stop_failure_witness :
    sampleDynServer.disconnect stopFail =
      (sampleDynServer, Except.error Err.regularNativeError) :=
  disconnect_stop_failure sampleDynServer stopFail plainEngineError rfl

/-- C7: when the engine's `stop` succeeds, `disconnect()` resets
`displayAddress` to the empty string for a dynamic server and leaves the
state unchanged for a static server. -/
theorem disconnect_stop_success (s : OutlineServer)
    (stop : String → Except JSError Unit) (hstop : stop s.id = Except.ok ()) :
    (s.type = ServerType.DYNAMIC_CONNECTION →
      s.disconnect stop = ({ s with displayAddress := "" }, Except.ok ())) ∧
    (s.type = ServerType.STATIC_CONNECTION →
      s.disconnect stop = (s, Except.ok ())) := by
  constructor
  · intro hty
    simp [OutlineServer.disconnect, hstop, hty]
  · intro hty
    simp [OutlineServer.disconnect, hstop, hty]

/-- Witness for C7: the sample dynamic and static servers with an
always-successful stop. -/
theorem disconnect_stop_success_witness :
    sampleDynServer.disconnect stopOk =
      ({ sampleDynServer with displayAddress := "" }, Except.ok ()) ∧
    sampleStaticServer.disconnect stopOk =
      (sampleStaticServer, Except.ok ()) :=
  ⟨(disconnect_stop_success sampleDynServer stopOk rfl).1 rfl,
   (disconnect_stop_success sampleStaticServer stopOk rfl).2 rfl⟩

/-- C8: `displayAddress` is the only session field `connect()` and
`disconnect()` mutate — `id`, `type`, `name`, `accessKey`,
`tunnelConfigLocation`, `staticTunnelConfig` and `errorMessageId` are
unchanged by either operation, successful or failing. -/
theorem connect_disconnect_frame (s : OutlineServer)
    (f : Except JSError String) (p : String → Except JSError TunnelConfigJson)
    (start : StartRequestJson → Except JSError Unit)
    (stop : String → Except JSError Unit) :
    ((s.connect f p start).1.id = s.id ∧
     (s.connect f p start).1.type = s.type ∧
     (s.connect f p start).1.name = s.name ∧
     (s.connect f p start).1.accessKey = s.accessKey ∧
     (s.connect f p start).1.tunnelConfigLocation = s.tunnelConfigLocation ∧
     (s.connect f p start).1.staticTunnelConfig = s.staticTunnelConfig ∧
     (s.connect f p start).1.errorMessageId = s.errorMessageId) ∧
    ((s.disconnect stop).1.id = s.id ∧
     (s.disconnect stop).1.type = s.type ∧
     (s.disconnect stop).1.name = s.name ∧
     (s.disconnect stop).1.accessKey = s.accessKey ∧
     (s.disconnect stop).1.tunnelConfigLocation = s.tunnelConfigLocation ∧
     (s.disconnect stop).1.staticTunnelConfig = s.staticTunnelConfig ∧
     (s.disconnect stop).1.errorMessageId = s.errorMessageId) := by
  constructor
  · by_cases hty : s.type = ServerType.DYNAMIC_CONNECTION
    · cases hfp : fetchTunnelConfig f p with
      | error err => simp [OutlineServer.connect, hty, hfp]
      | ok cfg => simp [OutlineServer.connect, hty, hfp]
    · simp [OutlineServer.connect, hty]
  · cases hst : stop s.id with
    | ok u =>
      by_cases hty : s.type = ServerType.DYNAMIC_CONNECTION <;>
        simp [OutlineServer.disconnect, hst, hty]
    | error err => simp [OutlineServer.disconnect, hst]

/-- C9: resolving a static tunnel configuration is the identity — the
constructed static server stores the embedded configuration unchanged, and
`connect()` submits exactly that stored configuration to the engine's `start`
(via `submitStart`, which passes `{id, name, config}` on), with no dependence
on the fetcher or parser (no fetch, no transformation). -/
theorem static_resolution_identity (id : String) (nameArg : Option String)
    (accessKey : String) (localize : String → String) (n : Option String)
    (cfg : TunnelConfigJson)
    (f fOther : Except JSError String)
    (p pOther : String → Except JSError TunnelConfigJson)
    (start : StartRequestJson → Except JSError Unit) :
    (OutlineServer.construct id nameArg accessKey localize
        (ServiceConfig.static n cfg)).staticTunnelConfig = some cfg ∧
    (∀ s : OutlineServer, s.type = ServerType.STATIC_CONNECTION →
      s.connect f p start = (s, s.submitStart s.staticTunnelConfig start) ∧
      s.startRequest s.staticTunnelConfig =
        { id := s.id, name := s.name, config := s.staticTunnelConfig } ∧
      s.connect f p start = s.connect fOther pOther start) := by
  refine ⟨rfl, ?_⟩
  intro s hty
  refine ⟨?_, rfl, ?_⟩
  · simp [OutlineServer.connect, hty]
  · simp [OutlineServer.connect, hty]

/-- Witness for C9: the sample static server; the fetcher and parser are
irrelevant to its connect. -/
theorem static_resolution_identity_witness :
    sampleStaticServer.staticTunnelConfig = some sampleCfg ∧
    sampleStaticServer.connect (Except.ok "ignored") sampleParseOk
        startFailPlain =
      (sampleStaticServer,
        sampleStaticServer.submitStart sampleStaticServer.staticTunnelConfig
          startFailPlain) ∧
    sampleStaticServer.connect (Except.ok "ignored") sampleParseOk
        startFailPlain =
      sampleStaticServer.connect (Except.error plainFetchError)
        (fun _ => Except.error plainFetchError) startFailPlain :=
  ⟨(static_resolution_identity "id-static" (some "My Server") "ss-static-key"
      sampleLocalize none sampleCfg (Except.ok "ignored")
      (Except.error plainFetchError) sampleParseOk
      (fun _ => Except.error plainFetchError) startFailPlain).1,
   ((static_resolution_identity "id-static" (some "My Server") "ss-static-key"
      sampleLocalize none sampleCfg (Except.ok "ignored")
      (Except.error plainFetchError) sampleParseOk
      (fun _ => Except.error plainFetchError) startFailPlain).2
      sampleStaticServer rfl).1,
   ((static_resolution_identity "id-static" (some "My Server") "ss-static-key"
      sampleLocalize none sampleCfg (Except.ok "ignored")
      (Except.error plainFetchError) sampleParseOk
      (fun _ => Except.error plainFetchError) startFailPlain).2
      sampleStaticServer rfl).2.2⟩

/-- C10: constructor name precedence — a non-null `name` argument wins; a null
argument falls back to the name embedded in the parsed access key; only when
the resulting name is still null/empty is the variant-specific default
applied: for a dynamic server the config-location hostname (with `:port`
appended when the URL port is not '443'), for a static server a localized
label whose key depends on the access key containing 'outline=1'. -/
theorem constructor_name_resolution (id : String) (nameArg : Option String)
    (accessKey : String) (localize : String → String)
    (serviceConfig : ServiceConfig) :
    (∀ nm : String, nameArg = some nm → nm ≠ "" →
      (OutlineServer.construct id nameArg accessKey localize
          serviceConfig).name = nm) ∧
    (∀ nm : String, nameArg = none → serviceConfig.name = some nm → nm ≠ "" →
      (OutlineServer.construct id nameArg accessKey localize
          serviceConfig).name = nm) ∧
    (nameFalsy (nullishName nameArg serviceConfig.name) = true →
      (∀ nm loc, serviceConfig = ServiceConfig.dynamic nm loc →
        (OutlineServer.construct id nameArg accessKey localize
            serviceConfig).name =
          (if loc.port = "443" then loc.hostname
           else net.joinHostPort loc.hostname loc.port)) ∧
      (∀ nm scfg, serviceConfig = ServiceConfig.static nm scfg →
        (OutlineServer.construct id nameArg accessKey localize
            serviceConfig).name =
          localize (if strIncludes accessKey "outline=1" = true then
              "server-default-name-outline"
            else "server-default-name"))) := by
  refine ⟨?_, ?_, ?_⟩
  · intro nm hna hne
    subst hna
    have hf : nameFalsy (nullishName (some nm) serviceConfig.name) = false := by
      simp [nullishName, nameFalsy, strFalsy_eq_false nm hne]
    cases serviceConfig with
    | dynamic n2 loc =>
      simp [OutlineServer.construct, ServiceConfig.name, nullishName,
        nameFalsy, strFalsy_eq_false nm hne]
    | static n2 scfg =>
      simp [OutlineServer.construct, ServiceConfig.name, nullishName,
        nameFalsy, strFalsy_eq_false nm hne]
  · intro nm hna hcfg hne
    subst hna
    cases serviceConfig with
    | dynamic n2 loc =>
      simp [ServiceConfig.name] at hcfg
      subst hcfg
      simp [OutlineServer.construct, ServiceConfig.name, nullishName,
        nameFalsy, strFalsy_eq_false nm hne]
    | static n2 scfg =>
      simp [ServiceConfig.name] at hcfg
      subst hcfg
      simp [OutlineServer.construct, ServiceConfig.name, nullishName,
        nameFalsy, strFalsy_eq_false nm hne]
  · intro hfalsy
    constructor
    · intro nm loc hsc
      subst hsc
      simp [ServiceConfig.name, nullishName] at hfalsy ⊢
      simp [OutlineServer.construct, nullishName, ServiceConfig.name, hfalsy]
    · intro nm scfg hsc
      subst hsc
      simp [ServiceConfig.name, nullishName] at hfalsy ⊢
      simp [OutlineServer.construct, nullishName, ServiceConfig.name, hfalsy]

/-- Witness for C10: explicit name, embedded name, and both variant
defaults. -/
theorem constructor_name_resolution_witness :
    (OutlineServer.construct "w10" (some "Given Name") "key-a" sampleLocalize
        (ServiceConfig.static (some "Embedded") sampleCfg)).name =
      "Given Name" ∧
    (OutlineServer.construct "w10" none "key-a" sampleLocalize
        (ServiceConfig.static (some "Embedded") sampleCfg)).name =
      "Embedded" ∧
    (OutlineServer.construct "w10" none "key-a" sampleLocalize
        (ServiceConfig.dynamic none sampleURL)).name =
      (if sampleURL.port = "443" then sampleURL.hostname
       else net.joinHostPort sampleURL.hostname sampleURL.port) ∧
    (OutlineServer.construct "w10" none "key-a?outline=1" sampleLocalize
        (ServiceConfig.static none sampleCfg)).name =
      sampleLocalize (if strIncludes "key-a?outline=1" "outline=1" = true then
          "server-default-name-outline"
        else "server-default-name") :=
  ⟨(constructor_name_resolution "w10" (some "Given Name") "key-a"
      sampleLocalize (ServiceConfig.static (some "Embedded") sampleCfg)).1
      "Given Name" rfl (by decide),
   (constructor_name_resolution "w10" none "key-a" sampleLocalize
      (ServiceConfig.static (some "Embedded") sampleCfg)).2.1
      "Embedded" rfl rfl (by decide),
   ((constructor_name_resolution "w10" none "key-a" sampleLocalize
      (ServiceConfig.dynamic none sampleURL)).2.2 rfl).1 none sampleURL rfl,
   ((constructor_name_resolution "w10" none "key-a?outline=1" sampleLocalize
      (ServiceConfig.static none sampleCfg)).2.2 rfl).2 none sampleCfg rfl⟩

end OutlineSpec
